import Mathlib

/-!
# Verification of the Talaash lost-and-found moderation workflow

A shallow embedding of the moderation / lifecycle logic of the Talaash
backend (`backend/app`), covering:

* `app/utils/firebase_verify.py` — `extract_token_from_header`
* `app/utils/validators.py` — `validate_iba_email`, `validate_file_size`
* `app/models/user_model.py` — `UserDB`, `create_user`, `get_user_by_email`
* `app/models/item_model.py` — `FoundItemDB` / `LostItemDB`,
  `create_found_item`, `create_lost_item`, item lookup
* `app/routes/admin_routes.py` — `admin_dashboard`, `add_found_item`,
  `approve_item`, `reject_item`, `approve_lost_item`, `reject_lost_item`
* `app/routes/items_routes.py` — `upload_found_item`, `upload_lost_item`,
  `get_found_items_list`, `get_lost_items_list`, `delete_found_item`,
  `delete_lost_item`
* `app/routes/auth_routes.py` — `signup`, `login`

The relational store is modelled as Lean lists of records (one list per
table); handlers are pure functions from the store (and request data) to
an `Except` result carrying the updated store.  External collaborators are
parameters: Firebase token verification (`get_user_from_token`) is an
oracle `Verifier : String → Option Claims`, and `datetime.fromisoformat`
is an oracle `DateParser : String → Option Nat` (a parsed timestamp is an
abstract `Nat`).  Wall-clock metadata (`created_at` column defaults) and
filesystem side effects (writing/removing image files) do not influence
any control-flow decision in the embedded handlers and are not modelled;
the generated `uuid4` filename component is passed in as an explicit
argument, and the autoincrement primary key is modelled as max-id + 1.
-/

namespace Talaash

/-- The claim dictionary produced by `get_user_from_token`
(`app/utils/firebase_verify.py`): `{uid, email, name, email_verified}`.
Each of the first three is `decoded_token.get(...)`, hence optional. -/
structure Claims where
  uid : Option String
  email : Option String
  name : Option String
  email_verified : Bool
deriving DecidableEq, Repr

/-- A row of the `users` table (`UserDB` in `app/models/user_model.py`):
id (autoincrement pk), name, email (unique), role (default "user").
The `created_at` column (default `utcnow`) is wall-clock metadata that no
handler reads; it is not modelled. -/
structure User where
  id : Nat
  name : String
  email : String
  role : String
deriving DecidableEq, Repr

/-- A row of the `found_items` / `lost_items` tables (`FoundItemDB` and
`LostItemDB` in `app/models/item_model.py`).  The two SQLAlchemy classes
are field-for-field identical — id, user_id (fk users.id), description,
location, a date column (`date_found` resp. `date_lost`, here
`date_event`), image_url (nullable), status (default "pending") — so one
structure models both; each handler below acts on the list standing for
its own table.  `created_at` is not modelled (see `User`). -/
structure Item where
  id : Nat
  user_id : Nat
  description : String
  location : String
  date_event : Nat
  image_url : Option String
  status : String
deriving DecidableEq, Repr

/-- An uploaded file as seen by the handlers: FastAPI's `UploadFile`
exposes `filename`, `content_type`, and the handlers read the content only
to measure its length (`len(file_content)`), modelled as `size`. -/
structure FileUpload where
  filename : String
  content_type : String
  size : Nat
deriving DecidableEq, Repr

/-- HTTP error outcomes raised by the embedded handlers
(the `HTTPException` status codes appearing in the routes). -/
inductive Err where
  /-- 400 Bad Request -/
  | badRequest
  /-- 401 Unauthorized -/
  | unauthorized
  /-- 403 Forbidden -/
  | forbidden
  /-- 404 Not Found -/
  | notFound
  /-- 413 Request Entity Too Large -/
  | payloadTooLarge
  /-- 422 Unprocessable Entity (FastAPI query/body validation failure) -/
  | validationError
  /-- 500 Internal Server Error -/
  | serverError
deriving DecidableEq, Repr

/-- The Firebase verification service: `get_user_from_token` in
`app/utils/firebase_verify.py` returns the claim dict for a valid token
and `None` for an invalid/expired one (it converts the `HTTPException`
raised by `verify_token` into `None`).  External collaborator, modelled
as an oracle. -/
abbrev Verifier := String → Option Claims

/-- Embeds `datetime.fromisoformat`: returns a parsed timestamp for a valid ISO
string, `None` (modelling the raised `ValueError`) otherwise.  Python
stdlib, modelled as an oracle. -/
abbrev DateParser := String → Option Nat

/-! ## Python string helpers used by the embedded code

Implemented by structural recursion over the character list so the kernel
can evaluate them on concrete inputs. -/

/-- Helper for `py_split`: `buf` holds the current fragment reversed. -/
def py_split_aux : List Char → List Char → List String
  | buf, [] => if buf.isEmpty then [] else [String.mk buf.reverse]
  | buf, c :: cs =>
    if c.isWhitespace then
      if buf.isEmpty then py_split_aux [] cs
      else String.mk buf.reverse :: py_split_aux [] cs
    else py_split_aux (c :: buf) cs

/-- Python's `str.split()` with no separator: split on runs of whitespace,
discarding empty fragments (so leading/trailing whitespace yields no
fragments and `"".split() == []`). -/
def py_split (s : String) : List String :=
  py_split_aux [] s.data

/-- Helper for `split_on_char`: `buf` holds the current fragment reversed. -/
def split_on_char_aux (sep : Char) : List Char → List Char → List String
  | buf, [] => [String.mk buf.reverse]
  | buf, c :: cs =>
    if c = sep then String.mk buf.reverse :: split_on_char_aux sep [] cs
    else split_on_char_aux sep (c :: buf) cs

/-- Python's `str.split(sep)` for a one-character separator: always
returns at least one fragment, keeps empty fragments. -/
def split_on_char (s : String) (sep : Char) : List String :=
  split_on_char_aux sep [] s.data

/-- Python's `str.lower()` (ASCII case folding, which is all the embedded
code compares against). -/
def py_lower (s : String) : String :=
  String.mk (s.data.map Char.toLower)

/-- Python's `email.split("@")[0]`: everything before the first `@`
(`str.split` always returns at least one element). -/
def local_part_of_email (email : String) : String :=
  (split_on_char email '@').headD ""

/-- Python's `os.path.splitext(name)[1]`: the extension including the
leading dot, empty when the name has no dot.  (The stdlib additionally
ignores leading dots of the basename, e.g. `".bashrc"`; no handler in any
claim is exercised on such a name, and the handlers only test membership
of the result in an allowed set.) -/
def splitext_ext (name : String) : String :=
  match split_on_char name '.' with
  | [_] => ""
  | parts => "." ++ (parts.getLastD "")

/-! ## `app/utils/firebase_verify.py` -/

/-- Embeds `extract_token_from_header` (`app/utils/firebase_verify.py`, lines
103–121): `if not authorization_header: return None`; split on
whitespace; `if len(parts) != 2 or parts[0].lower() != "bearer": return
None`; `return parts[1]`. -/
def extract_token_from_header (authorization_header : Option String) : Option String :=
  match authorization_header with
  | none => none
  | some s =>
    if s = "" then none
    else
      match py_split s with
      | [p0, p1] => if py_lower p0 = "bearer" then some p1 else none
      | _ => none

example : extract_token_from_header (some "Bearer abc") = some "abc" := by decide
example : extract_token_from_header (some "bEaReR tok") = some "tok" := by decide
example : extract_token_from_header (some "Basic abc") = none := by decide
example : extract_token_from_header (some "Bearer a b") = none := by decide
example : extract_token_from_header (some "") = none := by decide
example : extract_token_from_header none = none := by rfl

/-! ## `app/utils/validators.py` -/

/-- The character class `[a-zA-Z0-9._%+-]` of the local part in
`validate_iba_email`'s regex. -/
def iba_email_char (c : Char) : Bool :=
  c.isAlpha || c.isDigit || c = '.' || c = '_' || c = '%' || c = '+' || c = '-'

/-- Embeds `validate_iba_email` (`app/utils/validators.py`, lines 10–26):
`if not email: return False`, then full-match against
`^[a-zA-Z0-9._%+-]+@khi\.iba\.edu\.pk$`.  A string matches that anchored
pattern exactly when splitting it at `@` yields a non-empty local part of
class characters followed by the literal domain (the class excludes `@`,
so the split is faithful).  Python's `$` would additionally accept one
trailing newline; no embedded caller constructs such an email. -/
def validate_iba_email (email : String) : Bool :=
  if email = "" then false
  else
    match split_on_char email '@' with
    | [loc, dom] => loc ≠ "" && loc.data.all iba_email_char && dom = "khi.iba.edu.pk"
    | _ => false

example : validate_iba_email "bob@khi.iba.edu.pk" = true := by decide
example : validate_iba_email "bob@iba.edu.pk" = false := by decide
example : validate_iba_email "@khi.iba.edu.pk" = false := by decide
example : validate_iba_email "" = false := by decide

/-- Embeds `validate_file_size` (`app/utils/validators.py`, lines 46–58):
`file_size <= max_size_mb * 1024 * 1024`. -/
def validate_file_size (file_size : Nat) (max_size_mb : Nat) : Bool :=
  file_size ≤ max_size_mb * 1024 * 1024

/-! ## `app/models/user_model.py` -/

/-- Embeds `get_user_by_email` (`app/models/user_model.py`, lines 87–98):
first row of `users` whose `email` column equals the argument.  Admin
handlers call it with `user_data.get("email")`, which may be `None`; the
SQLAlchemy filter `email == None` matches no row of the non-nullable
column, hence the `none` case. -/
def get_user_by_email (users : List User) (email : Option String) : Option User :=
  match email with
  | none => none
  | some e => users.find? (fun u => u.email = e)

/-- Embeds `user_exists` (`app/models/user_model.py`, lines 115–126). -/
def user_exists (users : List User) (email : String) : Bool :=
  (get_user_by_email users (some email)).isSome

/-- The autoincrement primary key assigned to a newly inserted row:
one more than the largest id in the table (1 on an empty table). -/
def next_id (ids : List Nat) : Nat :=
  ids.foldr max 0 + 1

/-- Embeds `create_user` (`app/models/user_model.py`, lines 67–84): insert a new
`users` row with the given name, email and role; returns the refreshed
row and the updated table. -/
def create_user (users : List User) (name email role : String) : User × List User :=
  let u : User := { id := next_id (users.map (·.id)), name := name, email := email, role := role }
  (u, users ++ [u])

/-! ## `app/models/item_model.py` -/

/-- Embeds `get_found_item_by_id` (`app/models/item_model.py`, lines 163–174),
and the identical inline query
`db.query(...).filter(...id == item_id).first()` used by the admin
moderation handlers and `delete_lost_item`: first row with that id. -/
def get_item_by_id (items : List Item) (item_id : Nat) : Option Item :=
  items.find? (fun it => it.id = item_id)

/-- Embeds `create_found_item` (`app/models/item_model.py`, lines 113–145) and
the field-for-field identical `create_lost_item` (lines 191–223): insert
a row with the given fields; the `status` column takes its declared
default `"pending"` because neither constructor passes a status. -/
def create_item (items : List Item) (user_id : Nat) (description location : String)
    (date_event : Nat) (image_url : Option String) : Item × List Item :=
  let it : Item :=
    { id := next_id (items.map (·.id)), user_id := user_id, description := description,
      location := location, date_event := date_event, image_url := image_url,
      status := "pending" }
  (it, items ++ [it])

/-- The status update performed by the moderation handlers
(`db_item.status = s; db.commit()`): the row with the given primary key
gets status `s`, every other row is untouched. -/
def set_status (items : List Item) (item_id : Nat) (s : String) : List Item :=
  items.map (fun it => if it.id = item_id then { it with status := s } else it)

/-- The count queries of `admin_dashboard`:
`db.query(func.count(T.id)).filter(T.status == s).scalar()`. -/
def count_status (items : List Item) (s : String) : Nat :=
  (items.filter (fun it => it.status = s)).length

/-! ## `app/routes/admin_routes.py` — the shared admin authentication block

Every admin handler (`admin_dashboard`, `add_found_item`, the
pending/approved/rejected/all listings, `approve_item`, `reject_item`,
`approve_lost_item`, `reject_lost_item`) begins with the same inline
sequence, e.g. lines 715–742 of `approve_item`:

1. `if not authorization:` → 401 (catches a missing and an empty header);
2. `token = extract_token_from_header(authorization)`; `if not token:` → 401;
3. `user_data = get_user_from_token(token)`; `if not user_data:` → 401;
4. `db_user = get_user_by_email(db, user_data.get("email"))`;
   `if not db_user or db_user.role != "admin":` → 403.

`admin_auth` embeds that block once; each handler below starts with it. -/

/-- The admin authentication prelude shared verbatim by all handlers in
`app/routes/admin_routes.py` (see the section comment). -/
def admin_auth (verify : Verifier) (users : List User) (authorization : Option String) :
    Except Err User :=
  match authorization with
  | none => .error .unauthorized
  | some a =>
    if a = "" then .error .unauthorized
    else
      match extract_token_from_header (some a) with
      | none => .error .unauthorized
      | some token =>
        match verify token with
        | none => .error .unauthorized
        | some claims =>
          match get_user_by_email users claims.email with
          | none => .error .forbidden
          | some u => if u.role ≠ "admin" then .error .forbidden else .ok u

/-- Embeds `approve_item` (`app/routes/admin_routes.py`, lines 693–761): admin
auth, then `first()` lookup of the found item (404 when absent), then
`db_item.status = "approved"; db.commit()`.  Returns the updated
`found_items` table. -/
def approve_item (verify : Verifier) (users : List User) (found_items : List Item)
    (item_id : Nat) (authorization : Option String) : Except Err (List Item) :=
  match admin_auth verify users authorization with
  | .error e => .error e
  | .ok _ =>
    match get_item_by_id found_items item_id with
    | none => .error .notFound
    | some _ => .ok (set_status found_items item_id "approved")

/-- Embeds `reject_item` (`app/routes/admin_routes.py`, lines 764–831): admin
auth, 404 when the found item is absent, then unconditionally
`db_item.status = "rejected"; db.commit()` — there is no check of the
item's current status. -/
def reject_item (verify : Verifier) (users : List User) (found_items : List Item)
    (item_id : Nat) (authorization : Option String) : Except Err (List Item) :=
  match admin_auth verify users authorization with
  | .error e => .error e
  | .ok _ =>
    match get_item_by_id found_items item_id with
    | none => .error .notFound
    | some _ => .ok (set_status found_items item_id "rejected")

/-- Embeds `approve_lost_item` (`app/routes/admin_routes.py`, lines 913–981):
identical to `approve_item` over the `lost_items` table. -/
def approve_lost_item (verify : Verifier) (users : List User) (lost_items : List Item)
    (item_id : Nat) (authorization : Option String) : Except Err (List Item) :=
  match admin_auth verify users authorization with
  | .error e => .error e
  | .ok _ =>
    match get_item_by_id lost_items item_id with
    | none => .error .notFound
    | some _ => .ok (set_status lost_items item_id "approved")

/-- Embeds `reject_lost_item` (`app/routes/admin_routes.py`, lines 984–1051):
identical to `reject_item` over the `lost_items` table; again no check of
the item's current status. -/
def reject_lost_item (verify : Verifier) (users : List User) (lost_items : List Item)
    (item_id : Nat) (authorization : Option String) : Except Err (List Item) :=
  match admin_auth verify users authorization with
  | .error e => .error e
  | .ok _ =>
    match get_item_by_id lost_items item_id with
    | none => .error .notFound
    | some _ => .ok (set_status lost_items item_id "rejected")

/-- The `"statistics"` object returned by `admin_dashboard`
(`app/routes/admin_routes.py`, lines 238–246).  Note that the handler
computes no rejected count for the `lost_items` table: the seven fields
below are exactly the keys of the returned dict. -/
structure Statistics where
  pending_items : Nat
  total_items : Nat
  approved_items : Nat
  rejected_items : Nat
  pending_lost_items : Nat
  total_lost_items : Nat
  approved_lost_items : Nat
deriving DecidableEq, Repr

/-- Embeds `admin_dashboard` (`app/routes/admin_routes.py`, lines 162–247):
admin auth, then seven `func.count` queries over the current tables
(pending/total/approved/rejected over `found_items`, and
pending/total/approved over `lost_items`).  The `x or 0` guards in the
response map a NULL scalar to 0; a count is never NULL, and in this model
the counts are `Nat`s, so the guard is the identity. -/
def admin_dashboard (verify : Verifier) (users : List User)
    (found_items lost_items : List Item) (authorization : Option String) :
    Except Err Statistics :=
  match admin_auth verify users authorization with
  | .error e => .error e
  | .ok _ =>
    .ok { pending_items := count_status found_items "pending",
          total_items := found_items.length,
          approved_items := count_status found_items "approved",
          rejected_items := count_status found_items "rejected",
          pending_lost_items := count_status lost_items "pending",
          total_lost_items := lost_items.length,
          approved_lost_items := count_status lost_items "approved" }

/-- Embeds `add_found_item` (`app/routes/admin_routes.py`, lines 250–380): admin
auth; content-type must be in `["image/jpeg","image/png","image/gif",
"image/webp"]` (400); `len(file_content) > 5*1024*1024` → 400;
`datetime.fromisoformat(date_found)` → 400 on `ValueError`; then
`upload_image` stores the file under
`uploads/found_items/{uuid4()}.{ext}` where `ext` is the text after the
last dot of the filename, or `"jpg"` when the filename has no dot; the
new row is inserted with `user_id = db_user.id` and
`status = "approved"`.  `fresh_name` stands for the generated `uuid4()`;
the filesystem write is assumed to succeed (its failure path is the
blanket 500 handler).  Returns the created row and the updated table. -/
def add_found_item (verify : Verifier) (parse_date : DateParser)
    (users : List User) (found_items : List Item) (authorization : Option String)
    (description location date_found : String) (file : FileUpload)
    (fresh_name : String) : Except Err (Item × List Item) :=
  match admin_auth verify users authorization with
  | .error e => .error e
  | .ok db_user =>
    if ¬ (file.content_type = "image/jpeg" ∨ file.content_type = "image/png" ∨
          file.content_type = "image/gif" ∨ file.content_type = "image/webp") then
      .error .badRequest
    else if file.size > 5 * 1024 * 1024 then .error .badRequest
    else
      match parse_date date_found with
      | none => .error .badRequest
      | some parsed_date =>
        let file_ext :=
          if file.filename.data.contains '.' then
            (split_on_char file.filename '.').getLastD ""
          else "jpg"
        let image_url := "/uploads/found_items/" ++ fresh_name ++ "." ++ file_ext
        let it : Item :=
          { id := next_id (found_items.map (·.id)), user_id := db_user.id,
            description := description, location := location,
            date_event := parsed_date, image_url := some image_url,
            status := "approved" }
        .ok (it, found_items ++ [it])

/-! ## `app/routes/items_routes.py` -/

/-- Embeds `validate_image_file` (`app/routes/items_routes.py`, lines 50–53):
`os.path.splitext(filename)[1].lower() in ALLOWED_EXTENSIONS`, with
`ALLOWED_EXTENSIONS = {".jpg", ".jpeg", ".png", ".gif", ".webp"}`. -/
def validate_image_file (filename : String) : Bool :=
  let ext := py_lower (splitext_ext filename)
  ext = ".jpg" || ext = ".jpeg" || ext = ".png" || ext = ".gif" || ext = ".webp"

/-- Embeds `upload_found_item` (`app/routes/items_routes.py`, lines 56–152):
`if not token_str:` → 401; `get_user_from_token` → 401 when `None`; user
lookup by token email → 404 when absent; `if not file.filename:` → 400;
`validate_image_file` → 400; `validate_file_size(len(content), 5)` → 413;
`datetime.fromisoformat(date_found)` → 400 on `ValueError`; the file is
written to `uploads/{uuid4()}{ext}` (write assumed to succeed; its
failure path is a 500) and `create_found_item` inserts the row — with the
column-default status `"pending"`, whatever the caller's role.
`fresh_name` stands for the generated `uuid4()`. -/
def upload_found_item (verify : Verifier) (parse_date : DateParser)
    (users : List User) (found_items : List Item)
    (description location date_found : String) (file : FileUpload)
    (token_str : String) (fresh_name : String) : Except Err (Item × List Item) :=
  if token_str = "" then .error .unauthorized
  else
    match verify token_str with
    | none => .error .unauthorized
    | some claims =>
      match get_user_by_email users claims.email with
      | none => .error .notFound
      | some db_user =>
        if file.filename = "" then .error .badRequest
        else if ¬ validate_image_file file.filename then .error .badRequest
        else if ¬ validate_file_size file.size 5 then .error .payloadTooLarge
        else
          match parse_date date_found with
          | none => .error .badRequest
          | some parsed_date =>
            let image_url := "/uploads/" ++ fresh_name ++ splitext_ext file.filename
            .ok (create_item found_items db_user.id description location parsed_date
                  (some image_url))

/-- Embeds `upload_lost_item` (`app/routes/items_routes.py`, lines 318–407):
identical to `upload_found_item` over the `lost_items` table, except it
has no `if not token_str` guard (an empty credential simply fails
verification). -/
def upload_lost_item (verify : Verifier) (parse_date : DateParser)
    (users : List User) (lost_items : List Item)
    (description location date_lost : String) (file : FileUpload)
    (token_str : String) (fresh_name : String) : Except Err (Item × List Item) :=
  match verify token_str with
  | none => .error .unauthorized
  | some claims =>
    match get_user_by_email users claims.email with
    | none => .error .notFound
    | some db_user =>
      if file.filename = "" then .error .badRequest
      else if ¬ validate_image_file file.filename then .error .badRequest
      else if ¬ validate_file_size file.size 5 then .error .payloadTooLarge
      else
        match parse_date date_lost with
        | none => .error .badRequest
        | some parsed_date =>
          let image_url := "/uploads/" ++ fresh_name ++ splitext_ext file.filename
          .ok (create_item lost_items db_user.id description location parsed_date
                (some image_url))

/-- The `status_filter` query-parameter validation of
`get_found_items_list` (`app/routes/items_routes.py`, line 160): FastAPI
rejects with 422 any value not matching the anchored regex
`^(pending|approved|claimed|all)$`.  `"rejected"` is not in the
alternation. -/
def found_status_filter_ok (s : String) : Bool :=
  s = "pending" || s = "approved" || s = "claimed" || s = "all"

/-- The `status_filter` validation of `get_lost_items_list`
(`app/routes/items_routes.py`, line 415): the anchored regex
`^(pending|approved|found|all)$`.  `"rejected"` is not in the
alternation. -/
def lost_status_filter_ok (s : String) : Bool :=
  s = "pending" || s = "approved" || s = "found" || s = "all"

/-- The query built by both list handlers: the whole table for the
sentinel `"all"`, otherwise `filter(T.status == status_filter)`. -/
def matching_items (items : List Item) (status_filter : String) : List Item :=
  if status_filter = "all" then items
  else items.filter (fun it => it.status = status_filter)

/-- Embeds `get_found_items_list` (`app/routes/items_routes.py`, lines 155–175):
FastAPI validates `skip ≥ 0` (a `Nat` here), `1 ≤ limit ≤ 50`, and the
`status_filter` regex, answering 422 on violation; then
`total = query.count()` on the filtered query and
`items = query.offset(skip).limit(limit).all()`. -/
def get_found_items_list (found_items : List Item) (skip limit : Nat)
    (status_filter : String) : Except Err (List Item × Nat) :=
  if limit < 1 ∨ 50 < limit then .error .validationError
  else if ¬ found_status_filter_ok status_filter then .error .validationError
  else
    let q := matching_items found_items status_filter
    .ok ((q.drop skip).take limit, q.length)

/-- Embeds `get_lost_items_list` (`app/routes/items_routes.py`, lines 410–430):
identical to `get_found_items_list` with the lost-variant regex. -/
def get_lost_items_list (lost_items : List Item) (skip limit : Nat)
    (status_filter : String) : Except Err (List Item × Nat) :=
  if limit < 1 ∨ 50 < limit then .error .validationError
  else if ¬ lost_status_filter_ok status_filter then .error .validationError
  else
    let q := matching_items lost_items status_filter
    .ok ((q.drop skip).take limit, q.length)

/-- Embeds `delete_found_item` (`app/routes/items_routes.py`, lines 262–315):
token verification → 401; actor lookup by token email → 404; item lookup
→ 404; `if db_item.user_id != db_user.id:` → 403 (no admin bypass —
ownership is the only authorization path); then best-effort file removal
(no store effect) and `db.delete(db_item)`, which removes exactly the
fetched (first-matching) row.  Returns the updated table. -/
def delete_found_item (verify : Verifier) (users : List User)
    (found_items : List Item) (item_id : Nat) (token_str : String) :
    Except Err (List Item) :=
  match verify token_str with
  | none => .error .unauthorized
  | some claims =>
    match get_user_by_email users claims.email with
    | none => .error .notFound
    | some db_user =>
      match get_item_by_id found_items item_id with
      | none => .error .notFound
      | some db_item =>
        if db_item.user_id ≠ db_user.id then .error .forbidden
        else .ok (found_items.eraseP (fun it => it.id = item_id))

/-- Embeds `delete_lost_item` (`app/routes/items_routes.py`, lines 470–523):
identical to `delete_found_item` over the `lost_items` table. -/
def delete_lost_item (verify : Verifier) (users : List User)
    (lost_items : List Item) (item_id : Nat) (token_str : String) :
    Except Err (List Item) :=
  match verify token_str with
  | none => .error .unauthorized
  | some claims =>
    match get_user_by_email users claims.email with
    | none => .error .notFound
    | some db_user =>
      match get_item_by_id lost_items item_id with
      | none => .error .notFound
      | some db_item =>
        if db_item.user_id ≠ db_user.id then .error .forbidden
        else .ok (lost_items.eraseP (fun it => it.id = item_id))

/-! ## `app/routes/auth_routes.py` -/

/-- Embeds `signup` (`app/routes/auth_routes.py`, lines 36–71): domain
validation → 400; if a user with that email already exists, return it
unchanged (no insert); otherwise `create_user` with the request's name
and role `"user"`.  Returns the (existing or created) user and the
updated table. -/
def signup (users : List User) (req_name req_email : String) :
    Except Err (User × List User) :=
  if ¬ validate_iba_email req_email then .error .badRequest
  else
    match get_user_by_email users (some req_email) with
    | some existing => .ok (existing, users)
    | none => .ok (create_user users req_name req_email "user")

/-- Embeds `login` (`app/routes/auth_routes.py`, lines 74–134): 422 on empty
email or token; domain validation → 400; if a user with that email
exists, return it unchanged.  Otherwise verify the token; when the
claims' email equals the request email, `create_user` with
`token_user.get("name") or request.email.split("@")[0]` (Python `or`:
the fallback fires on a missing *and* on an empty name) and role
`"user"`; in every other case → 404. -/
def login (verify : Verifier) (users : List User) (req_email req_token : String) :
    Except Err (User × List User) :=
  if req_email = "" then .error .validationError
  else if req_token = "" then .error .validationError
  else if ¬ validate_iba_email req_email then .error .badRequest
  else
    match get_user_by_email users (some req_email) with
    | some existing => .ok (existing, users)
    | none =>
      match verify req_token with
      | none => .error .notFound
      | some token_user =>
        if token_user.email = some req_email then
          let name :=
            match token_user.name with
            | some n => if n = "" then local_part_of_email req_email else n
            | none => local_part_of_email req_email
          .ok (create_user users name req_email "user")
        else .error .notFound

/-! ## Concrete fixtures for witnesses and counterexamples -/

/-- A concrete admin account. -/
def demoAdmin : User :=
  { id := 1, name := "Admin", email := "admin@khi.iba.edu.pk", role := "admin" }

/-- A concrete non-admin account. -/
def demoUser : User :=
  { id := 2, name := "Bob", email := "bob@khi.iba.edu.pk", role := "user" }

/-- A concrete verifier oracle recognising one admin and one user token. -/
def demoVerify : Verifier := fun t =>
  if t = "admintok" then
    some { uid := some "a1", email := some "admin@khi.iba.edu.pk",
           name := some "Admin", email_verified := true }
  else if t = "bobtok" then
    some { uid := some "b1", email := some "bob@khi.iba.edu.pk",
           name := some "Bob", email_verified := true }
  else none

/-- A concrete date-parser oracle recognising one ISO timestamp. -/
def demoParseDate : DateParser := fun s =>
  if s = "2024-01-15T14:30:00" then some 1705329000 else none

/-- A concrete valid image upload. -/
def demoFile : FileUpload :=
  { filename := "pic.jpg", content_type := "image/jpeg", size := 1000 }

/-- A concrete found/lost listing owned by `demoUser`, already approved. -/
def demoApprovedItem : Item :=
  { id := 1, user_id := 2, description := "Wallet", location := "Cafe",
    date_event := 0, image_url := none, status := "approved" }

/-- A concrete found/lost listing owned by `demoUser`, still pending. -/
def demoPendingItem : Item :=
  { id := 1, user_id := 2, description := "Wallet", location := "Cafe",
    date_event := 0, image_url := none, status := "pending" }

/-- The listing produced by `upload_found_item` for `demoFile` submitted
by `demoAdmin` with fresh name "u1". -/
def demoCreatedPending : Item :=
  { id := 1, user_id := 1, description := "Blue backpack", location := "Library",
    date_event := 1705329000, image_url := some "/uploads/u1.jpg",
    status := "pending" }

/-- The listing produced by `add_found_item` for `demoFile` submitted by
`demoAdmin` with fresh name "u1". -/
def demoAddedApproved : Item :=
  { id := 1, user_id := 1, description := "Blue backpack", location := "Library",
    date_event := 1705329000, image_url := some "/uploads/found_items/u1.jpg",
    status := "approved" }

/-- A concrete rejected lost listing. -/
def demoLostRejected : Item :=
  { id := 1, user_id := 2, description := "Phone", location := "Gym",
    date_event := 0, image_url := none, status := "rejected" }

/-- The same lost listing in the variant-terminal status "found". -/
def demoLostFound : Item :=
  { id := 1, user_id := 2, description := "Phone", location := "Gym",
    date_event := 0, image_url := none, status := "found" }

deriving instance DecidableEq for Except

example : admin_auth demoVerify [demoAdmin] (some "Bearer admintok") = .ok demoAdmin := by
  decide

/-! ## Shared lemmas about the store operations -/

/-- Updating the status twice with the same value is the same as once. -/
theorem set_status_idem (l : List Item) (i : Nat) (s : String) :
    set_status (set_status l i s) i s = set_status l i s := by
  induction l with
  | nil => rfl
  | cons hd tl ih =>
    by_cases hid : hd.id = i <;>
      simp only [set_status, List.map_cons] at ih ⊢ <;>
      simp [hid, ih]

/-- A status update leaves a store with no matching id unchanged. -/
theorem set_status_of_no_match (l : List Item) (i : Nat) (s : String)
    (h : ∀ x ∈ l, x.id ≠ i) : set_status l i s = l := by
  induction l with
  | nil => rfl
  | cons hd tl ih =>
    simp only [set_status, List.map_cons]
    rw [if_neg (h hd (by simp))]
    have := ih (fun x hx => h x (by simp [hx]))
    simp only [set_status] at this
    rw [this]

/-- Looking up the updated id after a status update returns the updated
row. -/
theorem get_item_set_status (l : List Item) (i : Nat) (s : String) (it : Item)
    (h : get_item_by_id l i = some it) :
    get_item_by_id (set_status l i s) i = some { it with status := s } := by
  induction l with
  | nil => simp [get_item_by_id] at h
  | cons hd tl ih =>
    by_cases hid : hd.id = i
    · rw [get_item_by_id, List.find?_cons_of_pos _ (by simp [hid])] at h
      injection h with h
      subst h
      simp only [set_status, List.map_cons, if_pos hid]
      rw [get_item_by_id, List.find?_cons_of_pos _ (by simp [hid])]
    · rw [get_item_by_id, List.find?_cons_of_neg _ (by simp [hid])] at h
      simp only [set_status, List.map_cons, if_neg hid]
      rw [get_item_by_id, List.find?_cons_of_neg _ (by simp [hid])]
      exact ih h

/-- On a store with no duplicate ids, updating a row to the status it
already has leaves the store unchanged. -/
theorem set_status_eq_self (l : List Item) (i : Nat) (s : String) (it : Item)
    (hnd : (l.map (·.id)).Nodup)
    (h : get_item_by_id l i = some it) (hst : it.status = s) :
    set_status l i s = l := by
  induction l with
  | nil => rfl
  | cons hd tl ih =>
    rw [List.map_cons, List.nodup_cons] at hnd
    by_cases hid : hd.id = i
    · rw [get_item_by_id, List.find?_cons_of_pos _ (by simp [hid])] at h
      injection h with h
      subst h
      simp only [set_status, List.map_cons, if_pos hid]
      have htl : set_status tl i s = tl := by
        apply set_status_of_no_match
        intro x hx hxi
        exact hnd.1 (by rw [hid, ← hxi]; exact List.mem_map_of_mem (·.id) hx)
      simp only [set_status] at htl
      rw [htl]
      have hhd : ({ hd with status := s } : Item) = hd := by
        cases hd
        cases hst
        rfl
      rw [hhd]
    · rw [get_item_by_id, List.find?_cons_of_neg _ (by simp [hid])] at h
      simp only [set_status, List.map_cons, if_neg hid]
      have := ih hnd.2 h
      simp only [set_status] at this
      rw [this]

/-- The shared admin prelude answers Forbidden for every authenticated
actor whose role is not admin, before anything else is consulted. -/
theorem admin_auth_forbidden (verify : Verifier) (users : List User) (a tok : String)
    (claims : Claims) (u : User)
    (ha : a ≠ "") (hx : extract_token_from_header (some a) = some tok)
    (hv : verify tok = some claims)
    (hu : get_user_by_email users claims.email = some u)
    (hrole : u.role ≠ "admin") :
    admin_auth verify users (some a) = .error .forbidden := by
  simp [admin_auth, ha, hx, hv, hu, hrole]

/-! ## Claim theorems -/

/-- Claim C10: `extract_token_from_header` returns the token iff the header
splits on whitespace into exactly two parts whose first part equals
"bearer" case-insensitively, in which case it returns the second part;
every other input — missing header, empty header, other scheme, fewer or
more than two parts — yields `none`. -/
theorem extract_token_characterisation :
    extract_token_from_header none = none ∧
    extract_token_from_header (some "") = none ∧
    (∀ s a b, py_split s = [a, b] → py_lower a = "bearer" →
      extract_token_from_header (some s) = some b) ∧
    (∀ s a b, py_split s = [a, b] → py_lower a ≠ "bearer" →
      extract_token_from_header (some s) = none) ∧
    (∀ s, (py_split s).length ≠ 2 → extract_token_from_header (some s) = none) := by
  refine ⟨rfl, by decide, ?_, ?_, ?_⟩
  · intro s a b hsp hb
    have hs : s ≠ "" := by
      intro h
      subst h
      simp [py_split, py_split_aux] at hsp
    simp [extract_token_from_header, hs, hsp, hb]
  · intro s a b hsp hb
    have hs : s ≠ "" := by
      intro h
      subst h
      simp [py_split, py_split_aux] at hsp
    simp [extract_token_from_header, hs, hsp, hb]
  · intro s hlen
    by_cases hs : s = ""
    · subst hs
      decide
    · simp only [extract_token_from_header, if_neg hs]
      split
      · next p0 p1 heq => exact absurd (by rw [heq]; rfl) hlen
      · rfl

/-- Witness for C10: the characterisation applied to a well-formed
bearer header, a different scheme, and a three-part header. -/
theorem extract_token_characterisation_witness :
    extract_token_from_header (some "Bearer abc123") = some "abc123" ∧
    extract_token_from_header (some "Basic abc123") = none ∧
    extract_token_from_header (some "Bearer a b") = none := by
  refine ⟨?_, ?_, ?_⟩
  · exact extract_token_characterisation.2.2.1 "Bearer abc123" "Bearer" "abc123"
      (by decide) (by decide)
  · exact extract_token_characterisation.2.2.2.1 "Basic abc123" "Basic" "abc123"
      (by decide) (by decide)
  · exact extract_token_characterisation.2.2.2.2 "Bearer a b" (by decide)

/-- Claim C3: For every authenticated actor whose role is not admin, and
for every listing id — whether or not any listing with that id exists in
either store — approve and reject fail with Forbidden: the authorization
check precedes the existence check, so the result does not depend on the
store or the id, and a non-admin never observes NotFound. -/
theorem moderation_forbidden_for_non_admin
    (verify : Verifier) (users : List User) (found_items lost_items : List Item)
    (item_id : Nat) (a tok : String) (claims : Claims) (u : User)
    (ha : a ≠ "") (hx : extract_token_from_header (some a) = some tok)
    (hv : verify tok = some claims)
    (hu : get_user_by_email users claims.email = some u)
    (hrole : u.role ≠ "admin") :
    approve_item verify users found_items item_id (some a) = .error .forbidden ∧
    reject_item verify users found_items item_id (some a) = .error .forbidden ∧
    approve_lost_item verify users lost_items item_id (some a) = .error .forbidden ∧
    reject_lost_item verify users lost_items item_id (some a) = .error .forbidden := by
  have h := admin_auth_forbidden verify users a tok claims u ha hx hv hu hrole
  exact ⟨by simp [approve_item, h], by simp [reject_item, h],
         by simp [approve_lost_item, h], by simp [reject_lost_item, h]⟩

/-- Witness for C3: the non-admin `demoUser` gets Forbidden from all four
moderation endpoints for id 99, which exists in neither store. -/
theorem moderation_forbidden_for_non_admin_witness :
    approve_item demoVerify [demoAdmin, demoUser] [demoPendingItem] 99
      (some "Bearer bobtok") = .error .forbidden ∧
    reject_item demoVerify [demoAdmin, demoUser] [demoPendingItem] 99
      (some "Bearer bobtok") = .error .forbidden ∧
    approve_lost_item demoVerify [demoAdmin, demoUser] [demoPendingItem] 99
      (some "Bearer bobtok") = .error .forbidden ∧
    reject_lost_item demoVerify [demoAdmin, demoUser] [demoPendingItem] 99
      (some "Bearer bobtok") = .error .forbidden :=
  moderation_forbidden_for_non_admin demoVerify [demoAdmin, demoUser]
    [demoPendingItem] [demoPendingItem] 99 "Bearer bobtok" "bobtok"
    { uid := some "b1", email := some "bob@khi.iba.edu.pk",
      name := some "Bob", email_verified := true }
    demoUser (by decide) (by decide) (by decide) (by decide) (by decide)

/-- Claim C1, counterexample: The claim that no operation moves a listing
from approved to rejected is false: an admin rejecting the approved
listing `demoApprovedItem` succeeds and sets its status to "rejected",
for the Found and for the Lost variant alike. -/
theorem reject_approved_counterexample :
    demoApprovedItem.status = "approved" ∧
    reject_item demoVerify [demoAdmin] [demoApprovedItem] 1 (some "Bearer admintok") =
      .ok [{ demoApprovedItem with status := "rejected" }] ∧
    reject_lost_item demoVerify [demoAdmin] [demoApprovedItem] 1 (some "Bearer admintok") =
      .ok [{ demoApprovedItem with status := "rejected" }] := by
  decide

/-- Claim C1, amended: The admin reject operation transitions every existing
listing — whatever its current status, approved included — to "rejected":
the handlers perform no pending-only check. -/
theorem reject_any_status
    (verify : Verifier) (users : List User) (found_items lost_items : List Item)
    (item_id : Nat) (authorization : Option String) (u : User)
    (hA : admin_auth verify users authorization = .ok u) :
    (∀ it, get_item_by_id found_items item_id = some it →
      reject_item verify users found_items item_id authorization =
        .ok (set_status found_items item_id "rejected") ∧
      get_item_by_id (set_status found_items item_id "rejected") item_id =
        some { it with status := "rejected" }) ∧
    (∀ it, get_item_by_id lost_items item_id = some it →
      reject_lost_item verify users lost_items item_id authorization =
        .ok (set_status lost_items item_id "rejected") ∧
      get_item_by_id (set_status lost_items item_id "rejected") item_id =
        some { it with status := "rejected" }) := by
  constructor <;> intro it hit
  · exact ⟨by simp [reject_item, hA, hit], get_item_set_status _ _ _ _ hit⟩
  · exact ⟨by simp [reject_lost_item, hA, hit], get_item_set_status _ _ _ _ hit⟩

/-- Witness for the amended C1: rejecting the approved listing succeeds
and the listing is afterwards rejected. -/
theorem reject_any_status_witness :
    reject_item demoVerify [demoAdmin] [demoApprovedItem] 1 (some "Bearer admintok") =
      .ok (set_status [demoApprovedItem] 1 "rejected") ∧
    get_item_by_id (set_status [demoApprovedItem] 1 "rejected") 1 =
      some { demoApprovedItem with status := "rejected" } :=
  (reject_any_status demoVerify [demoAdmin] [demoApprovedItem] [demoApprovedItem] 1
    (some "Bearer admintok") demoAdmin (by decide)).1 demoApprovedItem (by decide)

/-- Claim C5: Admin approval is idempotent: if one application succeeds
with store `items2`, a second application over `items2` succeeds and
leaves it unchanged; and on a store with unique primary keys, approving
an already-approved listing is a no-op success. -/
theorem approve_item_idempotent
    (verify : Verifier) (users : List User) (found_items items2 : List Item)
    (item_id : Nat) (authorization : Option String)
    (h : approve_item verify users found_items item_id authorization = .ok items2) :
    approve_item verify users items2 item_id authorization = .ok items2 ∧
    (∀ it, (found_items.map (·.id)).Nodup →
      get_item_by_id found_items item_id = some it → it.status = "approved" →
      items2 = found_items) := by
  cases hA : admin_auth verify users authorization with
  | error e => simp [approve_item, hA] at h
  | ok u =>
    cases hF : get_item_by_id found_items item_id with
    | none => simp [approve_item, hA, hF] at h
    | some it0 =>
      simp only [approve_item, hA, hF, Except.ok.injEq] at h
      constructor
      · subst h
        simp [approve_item, hA, get_item_set_status found_items item_id "approved" it0 hF,
          set_status_idem]
      · intro it hnd hit hst
        injection hit with hit
        subst hit
        rw [← h]
        exact set_status_eq_self found_items item_id "approved" it0 hnd hF hst

/-- Witness for C5: a second approval of the freshly approved store is a
success returning the same store, and approving the already-approved
store changes nothing. -/
theorem approve_item_idempotent_witness :
    approve_item demoVerify [demoAdmin] (set_status [demoPendingItem] 1 "approved") 1
      (some "Bearer admintok") = .ok (set_status [demoPendingItem] 1 "approved") ∧
    set_status [demoApprovedItem] 1 "approved" = [demoApprovedItem] := by
  refine ⟨(approve_item_idempotent demoVerify [demoAdmin] [demoPendingItem] _ 1
    (some "Bearer admintok") (by decide)).1, ?_⟩
  exact (approve_item_idempotent demoVerify [demoAdmin] [demoApprovedItem]
    (set_status [demoApprovedItem] 1 "approved") 1 (some "Bearer admintok")
    (by decide)).2 demoApprovedItem (by decide) (by decide) (by decide)

/-- Claim C4: For every existing listing and every authenticated actor,
delete succeeds exactly when the actor is the owner
(`db_item.user_id == db_user.id`), removing that listing; any other
actor — role admin included, since the handler never consults the role —
gets Forbidden, and on that error path the handler returns before any
mutation, so the store is unchanged. -/
theorem delete_listing_owner_only
    (verify : Verifier) (users : List User) (found_items lost_items : List Item)
    (item_id : Nat) (token_str : String) (claims : Claims) (u : User)
    (hv : verify token_str = some claims)
    (hu : get_user_by_email users claims.email = some u) :
    (∀ it, get_item_by_id found_items item_id = some it →
      (it.user_id = u.id →
        delete_found_item verify users found_items item_id token_str =
          .ok (found_items.eraseP (fun x => x.id = item_id))) ∧
      (it.user_id ≠ u.id →
        delete_found_item verify users found_items item_id token_str =
          .error .forbidden)) ∧
    (∀ it, get_item_by_id lost_items item_id = some it →
      (it.user_id = u.id →
        delete_lost_item verify users lost_items item_id token_str =
          .ok (lost_items.eraseP (fun x => x.id = item_id))) ∧
      (it.user_id ≠ u.id →
        delete_lost_item verify users lost_items item_id token_str =
          .error .forbidden)) := by
  constructor <;> intro it hit <;> constructor <;> intro hown <;>
    simp [delete_found_item, delete_lost_item, hv, hu, hit, hown]

/-- Witness for C4: the owner `demoUser` deletes the listing; the admin,
who is not the owner, gets Forbidden on the same listing. -/
theorem delete_listing_owner_only_witness :
    delete_found_item demoVerify [demoAdmin, demoUser] [demoApprovedItem] 1 "bobtok" =
      .ok (([demoApprovedItem]).eraseP (fun x => x.id = 1)) ∧
    delete_found_item demoVerify [demoAdmin, demoUser] [demoApprovedItem] 1 "admintok" =
      .error .forbidden := by
  constructor
  · exact ((delete_listing_owner_only demoVerify [demoAdmin, demoUser] [demoApprovedItem]
      [demoApprovedItem] 1 "bobtok"
      { uid := some "b1", email := some "bob@khi.iba.edu.pk",
        name := some "Bob", email_verified := true }
      demoUser (by decide) (by decide)).1 demoApprovedItem (by decide)).1 (by decide)
  · exact ((delete_listing_owner_only demoVerify [demoAdmin, demoUser] [demoApprovedItem]
      [demoApprovedItem] 1 "admintok"
      { uid := some "a1", email := some "admin@khi.iba.edu.pk",
        name := some "Admin", email_verified := true }
      demoAdmin (by decide) (by decide)).1 demoApprovedItem (by decide)).2 (by decide)

/-- Claim C6: Whenever a list operation succeeds it returns at most `limit`
items, and the returned total is the length of the full filtered result —
an expression in which neither `skip` nor `limit` occurs, so the total is
independent of the pagination parameters. -/
theorem list_listings_pagination
    (found_items lost_items : List Item) (skip limit : Nat) (fF fL : String)
    (outF outL : List Item × Nat)
    (hF : get_found_items_list found_items skip limit fF = .ok outF)
    (hL : get_lost_items_list lost_items skip limit fL = .ok outL) :
    outF.1.length ≤ limit ∧ outF.2 = (matching_items found_items fF).length ∧
    outL.1.length ≤ limit ∧ outL.2 = (matching_items lost_items fL).length := by
  by_cases h1 : limit < 1 ∨ 50 < limit
  · simp only [get_found_items_list] at hF
    rw [if_pos h1] at hF
    exact absurd hF (by simp)
  · by_cases h2 : found_status_filter_ok fF
    · by_cases h3 : lost_status_filter_ok fL
      · simp only [get_found_items_list, get_lost_items_list] at hF hL
        rw [if_neg h1, if_neg (not_not_intro h2)] at hF
        rw [if_neg h1, if_neg (not_not_intro h3)] at hL
        injection hF with hF
        injection hL with hL
        subst hF
        subst hL
        refine ⟨?_, rfl, ?_, rfl⟩ <;> simp [List.length_take]
      · simp only [get_lost_items_list] at hL
        rw [if_neg h1, if_pos h3] at hL
        exact absurd hL (by simp)
    · simp only [get_found_items_list] at hF
      rw [if_neg h1, if_pos h2] at hF
      exact absurd hF (by simp)

/-- Witness for C6: listing two approved items with limit 1 returns one
item and total 2. -/
theorem list_listings_pagination_witness :
    ((([demoApprovedItem, { demoApprovedItem with id := 2 }].drop 0).take 1).length ≤ 1) ∧
    (matching_items [demoApprovedItem, { demoApprovedItem with id := 2 }] "approved").length
      = 2 := by
  have h := list_listings_pagination
    [demoApprovedItem, { demoApprovedItem with id := 2 }] [] 0 1 "approved" "all"
    (([demoApprovedItem, { demoApprovedItem with id := 2 }].drop 0).take 1, 2) ([], 0)
    (by decide) (by decide)
  exact ⟨h.1, h.2.1.symm.trans (by decide)⟩

/-- Claim C7, counterexample: The claim that every status of the variant's
valid status set is an accepted `status_filter` value is false:
"rejected" belongs to both valid status sets, yet both list endpoints
reject it as invalid input (the validation regexes omit it). -/
theorem status_filter_rejected_counterexample :
    get_found_items_list [] 0 10 "rejected" = .error .validationError ∧
    get_lost_items_list [] 0 10 "rejected" = .error .validationError := by
  decide

/-- Claim C7, amended: With a valid limit, the Found list endpoint accepts
as `status_filter` exactly {"pending", "approved", "claimed", "all"} and
the Lost endpoint exactly {"pending", "approved", "found", "all"}; any
other value — "rejected" in particular — is rejected as invalid input. -/
theorem status_filter_accepted_values
    (found_items lost_items : List Item) (skip limit : Nat) (s : String)
    (h1 : 1 ≤ limit) (h2 : limit ≤ 50) :
    ((∃ out, get_found_items_list found_items skip limit s = .ok out) ↔
      s ∈ (["pending", "approved", "claimed", "all"] : List String)) ∧
    ((∃ out, get_lost_items_list lost_items skip limit s = .ok out) ↔
      s ∈ (["pending", "approved", "found", "all"] : List String)) := by
  have hlim : ¬ (limit < 1 ∨ 50 < limit) := by omega
  have hfs : found_status_filter_ok s = true ↔
      s ∈ (["pending", "approved", "claimed", "all"] : List String) := by
    simp [found_status_filter_ok, or_assoc]
  have hls : lost_status_filter_ok s = true ↔
      s ∈ (["pending", "approved", "found", "all"] : List String) := by
    simp [lost_status_filter_ok, or_assoc]
  constructor
  · rw [← hfs]
    constructor
    · rintro ⟨out, hout⟩
      by_contra hok
      simp only [get_found_items_list] at hout
      rw [if_neg hlim, if_pos hok] at hout
      exact absurd hout (by simp)
    · intro hok
      refine ⟨(((matching_items found_items s).drop skip).take limit,
        (matching_items found_items s).length), ?_⟩
      simp only [get_found_items_list]
      rw [if_neg hlim, if_neg (not_not_intro hok)]
  · rw [← hls]
    constructor
    · rintro ⟨out, hout⟩
      by_contra hok
      simp only [get_lost_items_list] at hout
      rw [if_neg hlim, if_pos hok] at hout
      exact absurd hout (by simp)
    · intro hok
      refine ⟨(((matching_items lost_items s).drop skip).take limit,
        (matching_items lost_items s).length), ?_⟩
      simp only [get_lost_items_list]
      rw [if_neg hlim, if_neg (not_not_intro hok)]

/-- Witness for the amended C7: "pending" is accepted, "rejected" is not. -/
theorem status_filter_accepted_values_witness :
    (∃ out, get_found_items_list [] 0 10 "pending" = .ok out) ∧
    ¬ (∃ out, get_found_items_list [] 0 10 "rejected" = .ok out) ∧
    ¬ (∃ out, get_lost_items_list [] 0 10 "rejected" = .ok out) := by
  refine ⟨(status_filter_accepted_values [] [] 0 10 "pending" (by decide)
    (by decide)).1.mpr (by decide), ?_, ?_⟩
  · intro hc
    have := (status_filter_accepted_values [] [] 0 10 "rejected" (by decide)
      (by decide)).1.mp hc
    simp at this
  · intro hc
    have := (status_filter_accepted_values [] [] 0 10 "rejected" (by decide)
      (by decide)).2.mp hc
    simp at this

/-- Claim C2, counterexample: The claim that an admin-created listing starts
"approved" regardless of the creation operation used is false: the admin
`demoAdmin` creating a listing through the user upload endpoint
`upload_found_item` gets a listing whose initial status is "pending". -/
theorem admin_upload_pending_counterexample :
    demoAdmin.role = "admin" ∧
    upload_found_item demoVerify demoParseDate [demoAdmin] [] "Blue backpack" "Library"
      "2024-01-15T14:30:00" demoFile "admintok" "u1" =
      .ok (demoCreatedPending, [demoCreatedPending]) ∧
    demoCreatedPending.status = "pending" ∧
    ("pending" : String) ≠ "approved" := by
  decide

/-- Claim C2, amended: Every listing successfully created through the user
upload endpoints starts "pending", whatever the creator's role; every
listing successfully created through the admin add endpoint (which itself
requires an admin actor) starts "approved". -/
theorem creation_initial_status
    (verify : Verifier) (parse_date : DateParser) (users : List User)
    (found_items lost_items : List Item) (description location date_str : String)
    (file : FileUpload) (token_str fresh_name : String) (authorization : Option String)
    (pF pL pA : Item × List Item) :
    (upload_found_item verify parse_date users found_items description location date_str
        file token_str fresh_name = .ok pF → pF.1.status = "pending") ∧
    (upload_lost_item verify parse_date users lost_items description location date_str
        file token_str fresh_name = .ok pL → pL.1.status = "pending") ∧
    (add_found_item verify parse_date users found_items authorization description location
        date_str file fresh_name = .ok pA → pA.1.status = "approved") := by
  refine ⟨?_, ?_, ?_⟩ <;> intro h
  · simp only [upload_found_item] at h
    repeat' split at h
    all_goals first
      | (injection h with h; subst h; rfl)
      | injection h
  · simp only [upload_lost_item] at h
    repeat' split at h
    all_goals first
      | (injection h with h; subst h; rfl)
      | injection h
  · simp only [add_found_item] at h
    repeat' split at h
    all_goals first
      | (injection h with h; subst h; rfl)
      | injection h

/-- Witness for the amended C2: a user-route creation comes out pending,
an admin-route creation comes out approved. -/
theorem creation_initial_status_witness :
    demoCreatedPending.status = "pending" ∧ demoAddedApproved.status = "approved" := by
  have h := creation_initial_status demoVerify demoParseDate [demoAdmin] [] []
    "Blue backpack" "Library" "2024-01-15T14:30:00" demoFile "admintok" "u1"
    (some "Bearer admintok") (demoCreatedPending, [demoCreatedPending])
    (demoCreatedPending, [demoCreatedPending]) (demoAddedApproved, [demoAddedApproved])
  exact ⟨h.1 (by decide), h.2.2 (by decide)⟩

/-- Claim C8, counterexample: The claim that the dashboard reports a
rejected count per variant is false: the handler computes no rejected
count over the lost-items table, so two lost stores that differ exactly
in their rejected rows — one rejected listing versus one "found" listing
— produce identical dashboard statistics. -/
theorem dashboard_no_lost_rejected_counterexample :
    admin_dashboard demoVerify [demoAdmin] [] [demoLostRejected] (some "Bearer admintok") =
      admin_dashboard demoVerify [demoAdmin] [] [demoLostFound] (some "Bearer admintok") ∧
    count_status [demoLostRejected] "rejected" = 1 ∧
    count_status [demoLostFound] "rejected" = 0 := by
  decide

/-- Claim C8, amended: For an admin actor the dashboard returns exactly the
handler's per-variant counts over the current store: pending, total,
approved and rejected for Found, but only pending, total and approved for
Lost (no lost rejected count is computed); on empty tables every returned
count is 0. -/
theorem dashboard_stats_fields
    (verify : Verifier) (users : List User) (found_items lost_items : List Item)
    (authorization : Option String) (u : User)
    (hA : admin_auth verify users authorization = .ok u) :
    admin_dashboard verify users found_items lost_items authorization =
      .ok { pending_items := count_status found_items "pending",
            total_items := found_items.length,
            approved_items := count_status found_items "approved",
            rejected_items := count_status found_items "rejected",
            pending_lost_items := count_status lost_items "pending",
            total_lost_items := lost_items.length,
            approved_lost_items := count_status lost_items "approved" } ∧
    admin_dashboard verify users [] [] authorization =
      .ok { pending_items := 0, total_items := 0, approved_items := 0,
            rejected_items := 0, pending_lost_items := 0, total_lost_items := 0,
            approved_lost_items := 0 } := by
  constructor <;> simp [admin_dashboard, hA, count_status]

/-- Witness for the amended C8: the dashboard over one pending found
listing and one rejected lost listing. -/
theorem dashboard_stats_fields_witness :
    admin_dashboard demoVerify [demoAdmin] [demoPendingItem] [demoLostRejected]
      (some "Bearer admintok") =
      .ok { pending_items := count_status [demoPendingItem] "pending",
            total_items := ([demoPendingItem] : List Item).length,
            approved_items := count_status [demoPendingItem] "approved",
            rejected_items := count_status [demoPendingItem] "rejected",
            pending_lost_items := count_status [demoLostRejected] "pending",
            total_lost_items := ([demoLostRejected] : List Item).length,
            approved_lost_items := count_status [demoLostRejected] "approved" } :=
  (dashboard_stats_fields demoVerify [demoAdmin] [demoPendingItem] [demoLostRejected]
    (some "Bearer admintok") demoAdmin (by decide)).1

/-- Claim C9: Account resolution is idempotent on existing accounts and
creates users with role "user": when an account with the request email
exists, signup and login return it unchanged and create nothing; when
none exists, signup creates one with role "user", and login creates one
with role "user" whose name is taken from the verified token claims,
falling back to the local part of the email when the claims carry no
(non-empty) name. -/
theorem resolve_or_create_behaviour
    (verify : Verifier) (users : List User) (req_name req_email req_token : String) :
    (∀ u, validate_iba_email req_email = true →
      get_user_by_email users (some req_email) = some u →
      signup users req_name req_email = .ok (u, users)) ∧
    (∀ u, req_email ≠ "" → req_token ≠ "" → validate_iba_email req_email = true →
      get_user_by_email users (some req_email) = some u →
      login verify users req_email req_token = .ok (u, users)) ∧
    (∀ w rest, validate_iba_email req_email = true →
      get_user_by_email users (some req_email) = none →
      signup users req_name req_email = .ok (w, rest) →
      w.role = "user" ∧ rest = users ++ [w]) ∧
    (∀ tu, req_email ≠ "" → req_token ≠ "" → validate_iba_email req_email = true →
      get_user_by_email users (some req_email) = none →
      verify req_token = some tu → tu.email = some req_email →
      ∃ w, login verify users req_email req_token = .ok (w, users ++ [w]) ∧
        w.role = "user" ∧ w.email = req_email ∧
        (tu.name = none → w.name = local_part_of_email req_email) ∧
        (∀ n, tu.name = some n → n ≠ "" → w.name = n)) := by
  refine ⟨?_, ?_, ?_, ?_⟩
  · intro u hval hu
    simp [signup, hval, hu]
  · intro u hne hnt hval hu
    simp [login, hne, hnt, hval, hu]
  · intro w rest hval hfind h
    simp only [signup, hval, not_true, ite_false, hfind] at h
    injection h with h
    simp only [create_user] at h
    rw [Prod.mk.injEq] at h
    refine ⟨?_, ?_⟩
    · rw [← h.1]
    · rw [← h.2, h.1]
  · intro tu hne hnt hval hfind hv htu
    cases hname : tu.name with
    | none =>
      refine ⟨(create_user users (local_part_of_email req_email) req_email "user").1,
        ?_, rfl, rfl, fun _ => rfl, ?_⟩
      · simp [login, hne, hnt, hval, hfind, hv, htu, hname, create_user]
      · intro n hn hn2
        exact absurd hn (by simp)
    | some n0 =>
      by_cases h0 : n0 = ""
      · subst h0
        refine ⟨(create_user users (local_part_of_email req_email) req_email "user").1,
          ?_, rfl, rfl, fun _ => rfl, ?_⟩
        · simp [login, hne, hnt, hval, hfind, hv, htu, hname, create_user]
        · intro n hn hn2
          injection hn with hn
          exact absurd hn.symm hn2
      · refine ⟨(create_user users n0 req_email "user").1, ?_, rfl, rfl, ?_, ?_⟩
        · simp [login, hne, hnt, hval, hfind, hv, htu, hname, h0, create_user]
        · intro hcontra
          exact absurd hcontra (by simp)
        · intro n hn hn2
          injection hn with hn

/-- Witness for C9: signup and login on the existing `demoUser` return
it unchanged; login on an empty directory creates a role-"user" account. -/
theorem resolve_or_create_behaviour_witness :
    signup [demoUser] "Bob" "bob@khi.iba.edu.pk" = .ok (demoUser, [demoUser]) ∧
    login demoVerify [demoUser] "bob@khi.iba.edu.pk" "bobtok" = .ok (demoUser, [demoUser]) ∧
    (∃ w, login demoVerify [] "bob@khi.iba.edu.pk" "bobtok" =
        .ok (w, ([] : List User) ++ [w]) ∧ w.role = "user") := by
  have h1 := (resolve_or_create_behaviour demoVerify [demoUser] "Bob"
    "bob@khi.iba.edu.pk" "bobtok").1 demoUser (by decide) (by decide)
  have h2 := (resolve_or_create_behaviour demoVerify [demoUser] "Bob"
    "bob@khi.iba.edu.pk" "bobtok").2.1 demoUser (by decide) (by decide) (by decide)
    (by decide)
  have h4 := (resolve_or_create_behaviour demoVerify [] "Bob"
    "bob@khi.iba.edu.pk" "bobtok").2.2.2
    { uid := some "b1", email := some "bob@khi.iba.edu.pk",
      name := some "Bob", email_verified := true }
    (by decide) (by decide) (by decide) (by decide) (by decide) (by decide)
  obtain ⟨w, hw1, hw2, _⟩ := h4
  exact ⟨h1, h2, w, hw1, hw2⟩

end Talaash
